import Mathlib

/-!
# Verification of the signal-derivation and composite-scoring engine

Shallow embedding of `src/backend/signals.ts` and `src/backend/server.ts`.

Modelling conventions:
* JavaScript numbers are modelled as exact rationals (`ℚ`); the claims under
  study are about control flow, guards, exact formulas and bounds, none of
  which depend on floating-point rounding.
* Timestamps (`Date.now()`, ISO strings produced by `new Date().toISOString()`)
  are modelled as integers (`ℤ`) ordered by time; "newer" is `<`.
* `Math.sqrt` (used only inside the Bollinger statistics) is abstracted as a
  function parameter `sqrtFn : ℚ → ℚ`; no claim depends on its value.
* Fallible upstream fetches are modelled as `Except String` / `Option` values
  supplied as inputs to the assembly, mirroring which failures are caught at
  which boundary in the source.
-/

namespace AITradingSite

/-- `clamp` from signals.ts: `Math.max(min, Math.min(max, value))` with
defaults `min = -1`, `max = 1`. -/
def clamp (value : ℚ) (lo : ℚ := -1) (hi : ℚ := 1) : ℚ :=
  max lo (min hi value)

/-- `rollingAverage` from signals.ts: sum of the values divided by the length.
(For the empty list JS yields `0/0 = NaN`; in ℚ division by zero yields `0`;
every call site below passes a nonempty list.) -/
def rollingAverage (values : List ℚ) : ℚ :=
  values.sum / values.length

/-- `PriceBar` from signals.ts; the date is modelled as an integer key. -/
structure PriceBar where
  date : ℤ
  close : ℚ
  volume : ℚ
deriving Repr, DecidableEq

/-- `SentimentSnapshot` from signals.ts. -/
structure SentimentSnapshot where
  bullishPercent : ℚ
  bearishPercent : ℚ
  score : ℚ
deriving Repr, DecidableEq

/-- `VolatilitySnapshot` from signals.ts. -/
structure VolatilitySnapshot where
  currentIv : ℚ
  lowIv : ℚ
  highIv : ℚ
deriving Repr, DecidableEq

/-- `IndicatorSignals` from signals.ts: seven named optional bounded signals. -/
structure IndicatorSignals where
  smaTrend : Option ℚ
  rsi : Option ℚ
  macd : Option ℚ
  bollinger : Option ℚ
  volumeSurge : Option ℚ
  sentiment : Option ℚ
  ivRank : Option ℚ
deriving Repr, DecidableEq

/-- `IndicatorDetail` from signals.ts. -/
structure IndicatorDetail where
  name : String
  value : String
  signal : Option ℚ
deriving Repr, DecidableEq

/-- `CompositePick` from signals.ts (`updatedAt` is a timestamp, see header). -/
structure CompositePick where
  symbol : String
  score : ℚ
  updatedAt : ℤ
  latestPrice : Option ℚ
  explanation : String
  signals : IndicatorSignals
  details : List IndicatorDetail
deriving Repr, DecidableEq

/-! ## Indicator library (signals.ts lines 181–305) -/

/-- `values.slice(-n)`: the last `n` elements (the whole list when `n` exceeds
the length, which matches JS slice semantics for nonneg smaller index). -/
def lastN (values : List ℚ) (n : ℕ) : List ℚ :=
  values.drop (values.length - n)

/-- `calculateSMA` from signals.ts. -/
def calculateSMA (values : List ℚ) (period : ℕ) : Option ℚ :=
  if values.length < period then none
  else some (rollingAverage (lastN values period))

/-- `calculateEMA` from signals.ts: seed with the simple average of the first
`period` values, then fold the smoothing recurrence over the rest. -/
def calculateEMA (values : List ℚ) (period : ℕ) : Option ℚ :=
  if values.length < period then none
  else
    let smoothing : ℚ := 2 / (period + 1)
    some ((values.drop period).foldl
      (fun ema v => v * smoothing + ema * (1 - smoothing))
      (rollingAverage (values.take period)))

/-- The successive differences `values[i] - values[i-1]` for `i = 1, …`. -/
def diffs (values : List ℚ) : List ℚ :=
  (values.zip values.tail).map (fun p => p.2 - p.1)

/-- One iteration of the Wilder running-average loop in `calculateRSI`:
`avgGain = (avgGain·(period-1) + max(change,0)) / period` and symmetrically
for the loss with `max(-change,0)`. -/
def wilderStep (period : ℚ) (acc : ℚ × ℚ) (change : ℚ) : ℚ × ℚ :=
  ((acc.1 * (period - 1) + max change 0) / period,
   (acc.2 * (period - 1) + max (-change) 0) / period)

/-- The `(avgGain, avgLoss)` pair the two loops of `calculateRSI` compute:
seed from the first `period` differences (gains from nonnegative changes,
losses from the absolute values of negative ones, each divided by `period`),
then Wilder updates over the remaining differences. -/
def wilderAverages (values : List ℚ) (period : ℕ) : ℚ × ℚ :=
  let changes := diffs values
  let first := changes.take period
  let gains := (first.map (fun c => if 0 ≤ c then c else 0)).sum
  let losses := (first.map (fun c => if 0 ≤ c then 0 else -c)).sum
  (changes.drop period).foldl (wilderStep period) (gains / period, losses / period)

/-- `calculateRSI` from signals.ts (default `period = 14`): guard
`values.length <= period → null`; `100` when the running average loss is
zero, else `100 - 100/(1 + avgGain/avgLoss)`. -/
def calculateRSI (values : List ℚ) (period : ℕ := 14) : Option ℚ :=
  if values.length ≤ period then none
  else
    let final := wilderAverages values period
    if final.2 = 0 then some 100
    else some (100 - 100 / (1 + final.1 / final.2))

/-- The `{macd, signal, histogram}` record returned by `calculateMACD`. -/
structure MacdResult where
  macd : ℚ
  signal : ℚ
  histogram : ℚ
deriving Repr, DecidableEq

/-- `calculateMACD` from signals.ts: 12/26/9 scheme. The short and long EMAs
are seeded from the first 12 resp. 26 values and both are then updated only
from index 26 onward (exactly as the source loop does); the macd series is
collected from index 26 onward; its own EMA(9) is the signal line. -/
def calculateMACD (values : List ℚ) : Option MacdResult :=
  if values.length < 35 then none
  else
    let kShort : ℚ := 2 / (12 + 1)
    let kLong : ℚ := 2 / (26 + 1)
    let st := (values.drop 26).foldl
      (fun (st : ℚ × ℚ × List ℚ) v =>
        let eS := v * kShort + st.1 * (1 - kShort)
        let eL := v * kLong + st.2.1 * (1 - kLong)
        (eS, eL, (eS - eL) :: st.2.2))
      (rollingAverage (values.take 12), rollingAverage (values.take 26), [])
    let macdValues := st.2.2.reverse
    if macdValues.length < 9 then none
    else
      let kSignal : ℚ := 2 / (9 + 1)
      let signal := (macdValues.drop 9).foldl
        (fun s m => m * kSignal + s * (1 - kSignal))
        (rollingAverage (macdValues.take 9))
      match macdValues.getLast? with
      | none => none
      | some m => some ⟨m, signal, m - signal⟩

/-- The `{middle, upper, lower, stdDev}` record returned by
`calculateBollinger`. -/
structure BollingerBands where
  middle : ℚ
  upper : ℚ
  lower : ℚ
  stdDev : ℚ
deriving Repr, DecidableEq

/-- `calculateBollinger` from signals.ts (defaults `period = 20`,
`multiplier = 2`). `Math.sqrt` is abstracted as `sqrtFn`. -/
def calculateBollinger (sqrtFn : ℚ → ℚ) (values : List ℚ)
    (period : ℕ := 20) (multiplier : ℚ := 2) : Option BollingerBands :=
  if values.length < period then none
  else
    let slice := lastN values period
    let middle := rollingAverage slice
    let variance := (slice.map (fun v => (v - middle) ^ 2)).sum / (period : ℚ)
    let stdDev := sqrtFn variance
    some ⟨middle, middle + multiplier * stdDev, middle - multiplier * stdDev, stdDev⟩

/-- `calculateVolumeSurge` from signals.ts (default `period = 20`): most
recent volume over the mean of the preceding `period` volumes
(`volumes.slice(-(period+1), -1)`), minus 1, clamped; `null` when the length
is ≤ period or the baseline is zero (JS `!baseline`). -/
def calculateVolumeSurge (volumes : List ℚ) (period : ℕ := 20) : Option ℚ :=
  if volumes.length ≤ period then none
  else
    match volumes.getLast? with
    | none => none
    | some recent =>
      let baseline := rollingAverage ((volumes.drop (volumes.length - (period + 1))).take period)
      if baseline = 0 then none
      else some (clamp (recent / baseline - 1))

/-- `calculateIvRank` from signals.ts. (The `Number.isFinite` checks are
vacuous over ℚ; the `highIv === lowIv` degenerate guard remains.) -/
def calculateIvRank (snapshot : Option VolatilitySnapshot) : Option ℚ :=
  match snapshot with
  | none => none
  | some s =>
    if s.highIv = s.lowIv then none
    else some (clamp ((s.currentIv - s.lowIv) / (s.highIv - s.lowIv) * 2 - 1))

/-! ## Normalizer (signals.ts lines 307–346) -/

/-- `sentimentSignal` from signals.ts. -/
def sentimentSignal (snapshot : Option SentimentSnapshot) : Option ℚ :=
  match snapshot with
  | none => none
  | some s => some (clamp s.score)

/-- `macdSignal` from signals.ts. -/
def macdSignal (m : Option MacdResult) : Option ℚ :=
  match m with
  | none => none
  | some r => some (clamp (r.histogram / max (1 / 100) |r.signal|))

/-- `bollingerSignal` from signals.ts. -/
def bollingerSignal (latestPrice : Option ℚ) (bands : Option BollingerBands) :
    Option ℚ :=
  match bands, latestPrice with
  | none, _ => none
  | _, none => none
  | some b, some p =>
    if b.stdDev = 0 then some 0
    else some (clamp ((p - b.middle) / (2 * b.stdDev)))

/-- `smaSignal` from signals.ts. -/
def smaSignal (sma50 sma200 : Option ℚ) : Option ℚ :=
  match sma50, sma200 with
  | none, _ => none
  | _, none => none
  | some a, some b =>
    if b = 0 then none else some (clamp ((a - b) / b))

/-- `rsiSignal` from signals.ts. -/
def rsiSignal (rsi : Option ℚ) : Option ℚ :=
  match rsi with
  | none => none
  | some r => some (clamp ((r - 50) / 25))

/-! ## Explanation builder (signals.ts lines 416–465) -/

/-- The fixed neutral sentence emitted when no signal qualifies. -/
def neutralSentence : String :=
  "Signals are mixed with no single driver dominating the setup."

/-- The `highlights` list `buildExplanation` accumulates: sequential
conditional pushes, modelled as list concatenation in the same order. -/
def buildHighlights (signals : IndicatorSignals) : List String :=
    (match signals.smaTrend with
     | some v =>
       if v > 1/5 then
         ["Trend momentum: 50-day moving average is comfortably above the 200-day"]
       else if v < -(1/5) then
         ["Downtrend pressure: 50-day average is tracking below the 200-day"]
       else []
     | none => []) ++
    (match signals.rsi with
     | some v =>
       if v > 3/10 then ["RSI momentum remains bullish"]
       else if v < -(3/10) then ["RSI shows oversold momentum"]
       else []
     | none => []) ++
    (match signals.macd with
     | some v =>
       if v > 3/10 then ["MACD histogram is expanding above the signal line"]
       else if v < -(3/10) then ["MACD histogram is weakening below the signal line"]
       else []
     | none => []) ++
    (match signals.volumeSurge with
     | some v =>
       if v > 3/10 then ["Volume is expanding versus the 20-day average"]
       else if v < -(3/10) then ["Volume is contracting versus the 20-day average"]
       else []
     | none => []) ++
    (match signals.sentiment with
     | some v =>
       if v > 1/5 then ["News sentiment skewed bullish"]
       else if v < -(1/5) then ["News sentiment skewed cautious"]
       else []
     | none => []) ++
    (match signals.ivRank with
     | some v =>
       if v > 1/5 then ["Implied volatility running hot relative to its range"]
       else if v < -(1/5) then ["Implied volatility deeply discounted"]
       else []
     | none => [])

/-- `buildExplanation` from signals.ts: `highlights.join('. ') + '.'`, or the
fixed neutral sentence when no clause qualified. -/
def buildExplanation (signals : IndicatorSignals) : String :=
  if (buildHighlights signals).isEmpty then neutralSentence
  else String.intercalate ". " (buildHighlights signals) ++ "."

/-- One row of the spec-side clause table ("Modelled from the spec", for the
refinement in claim C9): emit the bullish clause when the signal exceeds the
threshold, the bearish clause when it falls below the negated threshold,
nothing otherwise or when the signal is absent. -/
def clauseOf (v : Option ℚ) (threshold : ℚ) (bull bear : String) :
    Option String :=
  match v with
  | none => none
  | some x =>
    if x > threshold then some bull
    else if x < -threshold then some bear
    else none

/-- Spec-side clause list: one clause per qualifying signal from the fixed
library of bullish/bearish phrasings, in the fixed order of the table
(thresholds 0.2 for trend/sentiment/volatility-rank, 0.3 for
oscillator/momentum-divergence/volume-anomaly). -/
def explanationClauses (signals : IndicatorSignals) : List String :=
  (clauseOf signals.smaTrend (1/5)
    "Trend momentum: 50-day moving average is comfortably above the 200-day"
    "Downtrend pressure: 50-day average is tracking below the 200-day").toList ++
  (clauseOf signals.rsi (3/10)
    "RSI momentum remains bullish"
    "RSI shows oversold momentum").toList ++
  (clauseOf signals.macd (3/10)
    "MACD histogram is expanding above the signal line"
    "MACD histogram is weakening below the signal line").toList ++
  (clauseOf signals.volumeSurge (3/10)
    "Volume is expanding versus the 20-day average"
    "Volume is contracting versus the 20-day average").toList ++
  (clauseOf signals.sentiment (1/5)
    "News sentiment skewed bullish"
    "News sentiment skewed cautious").toList ++
  (clauseOf signals.ivRank (1/5)
    "Implied volatility running hot relative to its range"
    "Implied volatility deeply discounted").toList

/-- Spec-side narrative: join the emitted clauses with ". " (and the trailing
period the source appends), or the fixed neutral sentence when none qualify. -/
def explanationSpec (signals : IndicatorSignals) : String :=
  if explanationClauses signals = [] then neutralSentence
  else String.intercalate ". " (explanationClauses signals) ++ "."

/-! ## Composite scorer (signals.ts lines 467–490) -/

/-- The keys of `IndicatorSignals`, in declaration order (the order
`Object.keys` iterates in the source). -/
inductive SignalKey
  | smaTrend | rsi | macd | bollinger | volumeSurge | sentiment | ivRank
deriving Repr, DecidableEq

/-- Field access `signals[key]`. -/
def IndicatorSignals.get (s : IndicatorSignals) : SignalKey → Option ℚ
  | .smaTrend => s.smaTrend
  | .rsi => s.rsi
  | .macd => s.macd
  | .bollinger => s.bollinger
  | .volumeSurge => s.volumeSurge
  | .sentiment => s.sentiment
  | .ivRank => s.ivRank

/-- The fixed weights table of `weightedComposite`. -/
def weightOf : SignalKey → ℚ
  | .smaTrend => 1/5
  | .rsi => 3/20
  | .macd => 1/5
  | .bollinger => 1/10
  | .volumeSurge => 1/10
  | .sentiment => 3/20
  | .ivRank => 1/10

/-- `Object.keys(signals)` in declaration order. -/
def signalKeys : List SignalKey :=
  [.smaTrend, .rsi, .macd, .bollinger, .volumeSurge, .sentiment, .ivRank]

/-- `weightedComposite` from signals.ts: fold over the keys accumulating
`(weightedSum, totalWeight)` over the present signals; `0` when the total
weight is zero, else `clamp(weightedSum / totalWeight)`. -/
def weightedComposite (signals : IndicatorSignals) : ℚ :=
  let acc := signalKeys.foldl
    (fun (acc : ℚ × ℚ) key =>
      match signals.get key with
      | some v => (acc.1 + v * weightOf key, acc.2 + weightOf key)
      | none => acc)
    (0, 0)
  if acc.2 = 0 then 0 else clamp (acc.1 / acc.2)

/-- Spec-side view ("Modelled from the spec", for the refinement in claim
C1): the list of (value, fixed weight) pairs of the present signals, with the
spec's weight table: trend 0.20, oscillator 0.15, momentum-divergence 0.20,
band-position 0.10, volume-anomaly 0.10, sentiment 0.15, volatility-rank
0.10. -/
def presentPairs (signals : IndicatorSignals) : List (ℚ × ℚ) :=
  (match signals.smaTrend with | some v => [(v, 20/100)] | none => []) ++
  (match signals.rsi with | some v => [(v, 15/100)] | none => []) ++
  (match signals.macd with | some v => [(v, 20/100)] | none => []) ++
  (match signals.bollinger with | some v => [(v, 10/100)] | none => []) ++
  (match signals.volumeSurge with | some v => [(v, 10/100)] | none => []) ++
  (match signals.sentiment with | some v => [(v, 15/100)] | none => []) ++
  (match signals.ivRank with | some v => [(v, 10/100)] | none => [])

/-- Spec-side composite score: clamp of the weighted sum of the present
signals divided by the sum of their weights; exactly 0 when none present. -/
def compositeSpec (signals : IndicatorSignals) : ℚ :=
  if presentPairs signals = [] then 0
  else clamp (((presentPairs signals).map (fun p => p.1 * p.2)).sum /
    ((presentPairs signals).map Prod.snd).sum)

/-! ## Detail builder (signals.ts lines 348–414) -/

/-- Models `Number.prototype.toFixed(digits)`: decimal rendering of the
rational rounded to `digits` fractional digits. (No claim inspects these
display strings; the rendering is a straightforward decimal model.) -/
def formatFixed (digits : ℕ) (q : ℚ) : String :=
  let scaled : ℤ := round (q * (10 : ℚ) ^ digits)
  let sign := if scaled < 0 then "-" else ""
  let n := scaled.natAbs
  if digits = 0 then sign ++ toString n
  else
    let ip := n / 10 ^ digits
    let fp := n % 10 ^ digits
    let fs := toString fp
    let pad := String.mk (List.replicate (digits - fs.length) '0')
    sign ++ toString ip ++ "." ++ pad ++ fs

/-- The parsed view of the sparse fundamentals record as `buildDetails` reads
it: `parseFloat(raw.PERatio ?? '0')` resp. `parseFloat(raw.ProfitMargin ??
'0')`, with `none` standing for a non-finite parse result (a missing key
parses the default `'0'` and is therefore `some 0`). -/
structure FundamentalsData where
  peRatio : Option ℚ
  profitMargin : Option ℚ
deriving Repr, DecidableEq

/-- The params object of `buildDetails`. -/
structure BuildDetailsParams where
  symbol : String
  latestPrice : Option ℚ
  sma50 : Option ℚ
  sma200 : Option ℚ
  rsi : Option ℚ
  macd : Option MacdResult
  bollinger : Option BollingerBands
  volumeSurge : Option ℚ
  sentiment : Option SentimentSnapshot
  ivRank : Option ℚ
  fundamentals : Option FundamentalsData

/-- `buildDetails` from signals.ts: the ordered display rows, starting with
the last price, each later row pushed only when its underlying data is
present. -/
def buildDetails (params : BuildDetailsParams) : List IndicatorDetail :=
  [⟨"Last Price",
    (match params.latestPrice with
     | some p => "$" ++ formatFixed 2 p
     | none => "n/a"), none⟩] ++
  (match params.sma50, params.sma200 with
   | some a, some b =>
     [⟨"SMA50 / SMA200", formatFixed 2 a ++ " / " ++ formatFixed 2 b,
       smaSignal (some a) (some b)⟩]
   | _, _ => []) ++
  (match params.rsi with
   | some r => [⟨"RSI(14)", formatFixed 1 r, rsiSignal (some r)⟩]
   | none => []) ++
  (match params.macd with
   | some m => [⟨"MACD (Hist)", formatFixed 3 m.histogram, macdSignal (some m)⟩]
   | none => []) ++
  (match params.bollinger with
   | some b =>
     [⟨"Bollinger Band", formatFixed 2 b.lower ++ " - " ++ formatFixed 2 b.upper,
       bollingerSignal params.latestPrice (some b)⟩]
   | none => []) ++
  (match params.volumeSurge with
   | some v => [⟨"Volume vs Avg", formatFixed 1 (v * 100) ++ "%", some (clamp v)⟩]
   | none => []) ++
  (match params.sentiment with
   | some s =>
     [⟨"Sentiment (Bull/Bear)",
       formatFixed 1 s.bullishPercent ++ "% / " ++ formatFixed 1 s.bearishPercent ++ "%",
       sentimentSignal (some s)⟩]
   | none => []) ++
  (match params.ivRank with
   | some iv => [⟨"IV Rank", formatFixed 0 ((iv + 1) / 2 * 100), some iv⟩]
   | none => []) ++
  (match params.fundamentals with
   | some f =>
     (match f.peRatio with
      | some pe => if pe > 0 then [⟨"P/E Ratio", formatFixed 1 pe, none⟩] else []
      | none => []) ++
     (match f.profitMargin with
      | some pm => [⟨"Profit Margin", formatFixed 1 (pm * 100) ++ "%", none⟩]
      | none => [])
   | none => [])

/-! ## Signal assembly (signals.ts lines 116–142 and 492–553) -/

/-- The score computation of `fetchSentiment` (signals.ts lines 130–137):
`clamp((bullishPercent - bearishPercent) / 100)`, computed at the source. -/
def mkSentimentSnapshot (bullishPercent bearishPercent : ℚ) : SentimentSnapshot :=
  ⟨bullishPercent, bearishPercent, clamp ((bullishPercent - bearishPercent) / 100)⟩

/-- The four upstream outcomes handed to one assembly run.  The price fetch
may reject (missing key, provider failure, missing series) — its rejection
propagates through `Promise.all`.  The fundamentals fetch may also reject but
`getCompositeSignal` attaches `.catch(... => null)` at its own boundary.  The
sentiment and volatility fetchers catch internally and resolve with `null`,
so they arrive as plain options. -/
structure AssemblyInputs where
  priceResult : Except String (List PriceBar)
  fundamentalsResult : Except String FundamentalsData
  sentiment : Option SentimentSnapshot
  volatility : Option VolatilitySnapshot

/-- `getCompositeSignal` from signals.ts: price history is the hard
requirement (rejection or empty series aborts); the three optional inputs
only shape their own signals.  `now` models the `new Date().toISOString()`
stamp taken when the record is built. -/
def getCompositeSignal (sqrtFn : ℚ → ℚ) (inputs : AssemblyInputs)
    (symbol : String) (now : ℤ) : Except String CompositePick :=
  match inputs.priceResult with
  | .error e => .error e
  | .ok prices =>
    let fundamentals := inputs.fundamentalsResult.toOption
    if prices.length = 0 then .error ("No price data returned for " ++ symbol)
    else
      let closes := prices.map (fun b => b.close)
      let volumes := prices.map (fun b => b.volume)
      let latestPrice := closes.getLast?
      let sma50 := calculateSMA closes 50
      let sma200 := calculateSMA closes 200
      let rsi := calculateRSI closes
      let macd := calculateMACD closes
      let bollinger := calculateBollinger sqrtFn closes
      let volumeSurge := calculateVolumeSurge volumes
      let ivRank := calculateIvRank inputs.volatility
      let indicatorSignals : IndicatorSignals :=
        { smaTrend := smaSignal sma50 sma200
          rsi := rsiSignal rsi
          macd := macdSignal macd
          bollinger := bollingerSignal latestPrice bollinger
          volumeSurge := volumeSurge
          sentiment := sentimentSignal inputs.sentiment
          ivRank := ivRank }
      .ok
        { symbol := symbol
          score := weightedComposite indicatorSignals
          updatedAt := now
          latestPrice := latestPrice
          explanation := buildExplanation indicatorSignals
          signals := indicatorSignals
          details := buildDetails
            ⟨symbol, latestPrice, sma50, sma200, rsi, macd, bollinger,
             volumeSurge, inputs.sentiment, ivRank, fundamentals⟩ }

/-! ## Result cache and batch handler (server.ts) -/

/-- `CachedSignal` from server.ts. -/
structure CachedSignal where
  updatedAt : ℤ
  payload : CompositePick
deriving Repr, DecidableEq

/-- The cache `Map<string, CachedSignal>` as an insertion-ordered
association list. -/
def Cache : Type := List (String × CachedSignal)

/-- `Map.get`. -/
def cacheGet (c : Cache) (s : String) : Option CachedSignal :=
  match c with
  | [] => none
  | (k, v) :: rest => if k = s then some v else cacheGet rest s

/-- `Map.set`: replace in place when the key exists, append otherwise. -/
def cacheSet (c : Cache) (s : String) (v : CachedSignal) : Cache :=
  match c with
  | [] => [(s, v)]
  | (k, w) :: rest =>
    if k = s then (k, v) :: rest else (k, w) :: cacheSet rest s v

/-- The default TTL `2 * 60 * 1000` ms from server.ts. -/
def CACHE_TTL_MS : ℤ := 2 * 60 * 1000

/-- The fall-through tail of `loadSignal`: run one assembly, store
`{payload, updatedAt: now}` under the symbol, return the new payload.  The
boolean `true` records that an assembly (upstream fetch) ran. -/
def refreshSignal (assemble : String → ℤ → Except String CompositePick)
    (cache : Cache) (symbol : String) (now : ℤ) :
    Except String (CompositePick × Cache × Bool) :=
  match assemble symbol now with
  | .error e => .error e
  | .ok payload => .ok (payload, cacheSet cache symbol ⟨now, payload⟩, true)

/-- `loadSignal` from server.ts: serve the cached payload while
`now - cached.updatedAt < CACHE_TTL_MS`; otherwise fall through to
`refreshSignal` (the `assemble` parameter stands for `getCompositeSignal`
with its upstream environment fixed). -/
def loadSignal (assemble : String → ℤ → Except String CompositePick)
    (cache : Cache) (symbol : String) (now : ℤ) :
    Except String (CompositePick × Cache × Bool) :=
  match cacheGet cache symbol with
  | some cached =>
    if now - cached.updatedAt < CACHE_TTL_MS then
      .ok (cached.payload, cache, false)
    else refreshSignal assemble cache symbol now
  | none => refreshSignal assemble cache symbol now

/-- The degraded placeholder record the `/api/picks` handler substitutes for
a symbol whose assembly fails (server.ts lines 51–67). -/
def placeholderPick (symbol : String) (now : ℤ) : CompositePick :=
  { symbol := symbol
    score := 0
    updatedAt := now
    latestPrice := none
    explanation := "Signal unavailable due to upstream data error."
    signals := ⟨none, none, none, none, none, none, none⟩
    details := [] }

/-- The per-symbol step inside the handler's `Promise.all` map: try
`loadSignal`, catch any failure into the placeholder (leaving the cache as it
was). -/
def handleOne (assemble : String → ℤ → Except String CompositePick)
    (cache : Cache) (symbol : String) (now : ℤ) : CompositePick × Cache :=
  match loadSignal assemble cache symbol now with
  | .ok (p, c, _) => (p, c)
  | .error _ => (placeholderPick symbol now, cache)

/-- The handler's map over the requested symbols, threading the cache.  (The
source runs the per-symbol steps concurrently over the shared map; the spec
notes last-writer-wins per key as acceptable, and the claims under study are
about per-key behaviour, which the sequential threading preserves.) -/
def runPicks (assemble : String → ℤ → Except String CompositePick)
    (cache : Cache) (now : ℤ) : List String → List CompositePick × Cache
  | [] => ([], cache)
  | s :: rest =>
    let pc := handleOne assemble cache s now
    let prc := runPicks assemble pc.2 now rest
    (pc.1 :: prc.1, prc.2)

/-- The JSON body of the `/api/picks` response. -/
structure PicksResponse where
  updatedAt : ℤ
  symbols : List String
  picks : List CompositePick

/-- `picks.slice().sort((a, b) => b.score - a.score)`: stable sort by
descending score. -/
def sortPicks (picks : List CompositePick) : List CompositePick :=
  picks.mergeSort (fun a b => b.score ≤ a.score)

/-- The `/api/picks` handler from server.ts: one result per requested symbol
(placeholder on failure), sorted by descending score; also returns the cache
left behind. -/
def getPicks (assemble : String → ℤ → Except String CompositePick)
    (cache : Cache) (now : ℤ) (symbols : List String) :
    PicksResponse × Cache :=
  let rc := runPicks assemble cache now symbols
  (⟨now, symbols, sortPicks rc.1⟩, rc.2)

/-! ## Helper lemmas -/

theorem neg_one_le_clamp (x : ℚ) : -1 ≤ clamp x :=
  le_max_left _ _

theorem clamp_le_one (x : ℚ) : clamp x ≤ 1 := by
  simp [clamp]

theorem clamp_eq_self {x : ℚ} (h1 : -1 ≤ x) (h2 : x ≤ 1) : clamp x = x := by
  simp [clamp, min_eq_right h2, max_eq_right h1]

theorem clamp_clamp (x : ℚ) : clamp (clamp x) = clamp x :=
  clamp_eq_self (neg_one_le_clamp x) (clamp_le_one x)

set_option maxHeartbeats 2000000 in
/-- The fold of `weightedComposite` computes exactly the weighted sum and the
total weight of the present signals as the spec describes them. -/
theorem weightedComposite_eq_compositeSpec (s : IndicatorSignals) :
    weightedComposite s = compositeSpec s := by
  rcases s with ⟨a, b, c, d, e, f, g⟩
  cases a <;> cases b <;> cases c <;> cases d <;> cases e <;> cases f <;> cases g <;>
    norm_num [weightedComposite, compositeSpec, presentPairs, signalKeys,
      IndicatorSignals.get, weightOf] <;>
    (congr 1) <;> ring

/-- Both Wilder running averages stay nonnegative: the seeds are averages of
nonnegative quantities and each update mixes a nonnegative previous average
with a nonnegative gain/loss. -/
theorem wilderAverages_nonneg (values : List ℚ) (period : ℕ)
    (hp : 1 ≤ period) :
    0 ≤ (wilderAverages values period).1 ∧
    0 ≤ (wilderAverages values period).2 := by
  have hp1 : (1 : ℚ) ≤ (period : ℚ) := by exact_mod_cast hp
  have hstep : ∀ (l : List ℚ) (acc : ℚ × ℚ), 0 ≤ acc.1 → 0 ≤ acc.2 →
      0 ≤ (l.foldl (wilderStep period) acc).1 ∧
      0 ≤ (l.foldl (wilderStep period) acc).2 := by
    intro l
    induction l with
    | nil => exact fun acc h1 h2 => ⟨h1, h2⟩
    | cons c rest ih =>
      intro acc h1 h2
      refine ih _ ?_ ?_
      · exact div_nonneg
          (add_nonneg (mul_nonneg h1 (by linarith)) (le_max_right _ _))
          (by linarith)
      · exact div_nonneg
          (add_nonneg (mul_nonneg h2 (by linarith)) (le_max_right _ _))
          (by linarith)
  refine hstep _ _ ?_ ?_
  · refine div_nonneg (List.sum_nonneg ?_) (by linarith)
    intro x hx
    simp only [List.mem_map] at hx
    obtain ⟨c, _, rfl⟩ := hx
    split <;> simp_all
  · refine div_nonneg (List.sum_nonneg ?_) (by linarith)
    intro x hx
    simp only [List.mem_map] at hx
    obtain ⟨c, _, rfl⟩ := hx
    split <;> simp_all
    linarith

/-- One push-block of `buildHighlights` equals the corresponding spec-side
clause row. -/
theorem block_toList (v : Option ℚ) (threshold : ℚ) (bull bear : String) :
    (match v with
     | some x =>
       if x > threshold then [bull] else if x < -threshold then [bear] else []
     | none => ([] : List String)) =
    (clauseOf v threshold bull bear).toList := by
  cases v with
  | none => rfl
  | some x =>
    simp only [clauseOf]
    split_ifs <;> rfl

/-- The highlights the source accumulates are exactly the spec's clause
table, row by row. -/
theorem buildHighlights_eq_clauses (s : IndicatorSignals) :
    buildHighlights s = explanationClauses s := by
  rcases s with ⟨a, b, c, d, e, f, g⟩
  simp only [buildHighlights, explanationClauses]
  rw [block_toList a, block_toList b, block_toList c, block_toList e,
    block_toList f, block_toList g]

theorem cacheGet_cacheSet_self (c : Cache) (s : String) (v : CachedSignal) :
    cacheGet (cacheSet c s v) s = some v := by
  induction c with
  | nil => simp [cacheGet, cacheSet]
  | cons kv rest ih =>
    obtain ⟨k1, w⟩ := kv
    by_cases h : k1 = s
    · simp [cacheGet, cacheSet, h]
    · simp [cacheGet, cacheSet, h, ih]

theorem cacheGet_cacheSet_ne (c : Cache) (s k : String) (v : CachedSignal)
    (h : k ≠ s) : cacheGet (cacheSet c s v) k = cacheGet c k := by
  have hsk : s ≠ k := Ne.symm h
  induction c with
  | nil => simp [cacheGet, cacheSet, hsk]
  | cons kv rest ih =>
    obtain ⟨k1, w⟩ := kv
    by_cases h1 : k1 = s
    · subst h1
      simp [cacheGet, cacheSet, hsk]
    · simp [cacheGet, cacheSet, h1, ih]

/-- `refreshSignal` succeeds exactly when the assembly does, returning its
payload and writing it under the symbol. -/
theorem refreshSignal_cases
    (assemble : String → ℤ → Except String CompositePick)
    (cache : Cache) (symbol : String) (now : ℤ) :
    (∀ err, assemble symbol now = .error err →
      refreshSignal assemble cache symbol now = .error err) ∧
    (∀ p, assemble symbol now = .ok p →
      refreshSignal assemble cache symbol now =
        .ok (p, cacheSet cache symbol ⟨now, p⟩, true)) := by
  constructor
  · intro err ha
    unfold refreshSignal
    rw [ha]
  · intro p ha
    unfold refreshSignal
    rw [ha]

/-- A successful `loadSignal` either served the cache untouched or wrote
exactly the freshly assembled payload under the requested symbol. -/
theorem loadSignal_cache_cases
    (assemble : String → ℤ → Except String CompositePick)
    (cache : Cache) (symbol : String) (now : ℤ)
    (p : CompositePick) (c' : Cache) (b : Bool)
    (h : loadSignal assemble cache symbol now = .ok (p, c', b)) :
    c' = cache ∨ c' = cacheSet cache symbol ⟨now, p⟩ := by
  unfold loadSignal refreshSignal at h
  split at h
  · split at h
    · simp only [Except.ok.injEq, Prod.mk.injEq] at h
      left
      exact h.2.1.symm
    · split at h
      · exact absurd h (by simp)
      · simp only [Except.ok.injEq, Prod.mk.injEq] at h
        right
        rw [← h.1, h.2.1]
  · split at h
    · exact absurd h (by simp)
    · simp only [Except.ok.injEq, Prod.mk.injEq] at h
      right
      rw [← h.1, h.2.1]

/-- A `loadSignal` that performed an upstream fetch returns exactly the
payload the assembly succeeded with: only successfully assembled records are
ever written to the cache. -/
theorem loadSignal_fetch_ok
    (assemble : String → ℤ → Except String CompositePick)
    (cache : Cache) (symbol : String) (now : ℤ)
    (p : CompositePick) (c' : Cache)
    (h : loadSignal assemble cache symbol now = .ok (p, c', true)) :
    assemble symbol now = .ok p ∧ c' = cacheSet cache symbol ⟨now, p⟩ := by
  unfold loadSignal refreshSignal at h
  split at h
  · split at h
    · simp at h
    · split at h
      · exact absurd h (by simp)
      · next heq =>
        simp only [Except.ok.injEq, Prod.mk.injEq] at h
        rw [← h.1, h.2.1]
        exact ⟨heq, rfl⟩
  · split at h
    · exact absurd h (by simp)
    · next heq =>
      simp only [Except.ok.injEq, Prod.mk.injEq] at h
      rw [← h.1, h.2.1]
      exact ⟨heq, rfl⟩

/-- A `loadSignal` that performed no fetch left the cache untouched and
served the stored payload of an existing entry. -/
theorem loadSignal_nofetch
    (assemble : String → ℤ → Except String CompositePick)
    (cache : Cache) (symbol : String) (now : ℤ)
    (p : CompositePick) (c' : Cache)
    (h : loadSignal assemble cache symbol now = .ok (p, c', false)) :
    c' = cache ∧ ∃ e, cacheGet cache symbol = some e ∧ e.payload = p := by
  unfold loadSignal refreshSignal at h
  split at h
  · next e heq =>
    split at h
    · simp only [Except.ok.injEq, Prod.mk.injEq] at h
      exact ⟨h.2.1.symm, e, heq, h.1⟩
    · split at h
      · exact absurd h (by simp)
      · simp at h
  · split at h
    · exact absurd h (by simp)
    · simp at h

/-- When the entry is absent or stale and the assembly fails, the handler's
per-symbol step produces the placeholder and returns the cache exactly as it
was. -/
theorem handleOne_fail
    (assemble : String → ℤ → Except String CompositePick)
    (cache : Cache) (symbol : String) (now : ℤ) (err : String)
    (hstale : ∀ e, cacheGet cache symbol = some e →
      CACHE_TTL_MS ≤ now - e.updatedAt)
    (herr : assemble symbol now = .error err) :
    handleOne assemble cache symbol now = (placeholderPick symbol now, cache) ∧
    loadSignal assemble cache symbol now = .error err := by
  have hload : loadSignal assemble cache symbol now = .error err := by
    unfold loadSignal
    split
    · next e heq =>
      rw [if_neg (not_lt.mpr (hstale e heq))]
      exact (refreshSignal_cases assemble cache symbol now).1 err herr
    · exact (refreshSignal_cases assemble cache symbol now).1 err herr
  refine ⟨?_, hload⟩
  unfold handleOne
  rw [hload]

/-- The handler's per-symbol step never changes the cache at another key. -/
theorem handleOne_preserves_other
    (assemble : String → ℤ → Except String CompositePick)
    (cache : Cache) (symbol : String) (now : ℤ) (k : String)
    (hk : k ≠ symbol) :
    cacheGet (handleOne assemble cache symbol now).2 k = cacheGet cache k := by
  unfold handleOne
  cases h : loadSignal assemble cache symbol now with
  | error e => rfl
  | ok t =>
    obtain ⟨p, c', b⟩ := t
    rcases loadSignal_cache_cases assemble cache symbol now p c' b h with
      hc | hc <;> simp only [hc]
    exact cacheGet_cacheSet_ne cache symbol k _ hk

theorem runPicks_length
    (assemble : String → ℤ → Except String CompositePick) (now : ℤ) :
    ∀ (symbols : List String) (cache : Cache),
      (runPicks assemble cache now symbols).1.length = symbols.length := by
  intro symbols
  induction symbols with
  | nil => intro cache; rfl
  | cons s rest ih => intro cache; simp only [runPicks, List.length_cons, ih]

/-- For a symbol whose entry is absent or stale and whose assembly fails at
batch time, the pre-sort result list contains the placeholder. -/
theorem runPicks_placeholder_mem
    (assemble : String → ℤ → Except String CompositePick)
    (now : ℤ) (symbol : String) (err : String) :
    ∀ (symbols : List String) (cache : Cache), symbol ∈ symbols →
    (∀ e, cacheGet cache symbol = some e → CACHE_TTL_MS ≤ now - e.updatedAt) →
    assemble symbol now = .error err →
    placeholderPick symbol now ∈ (runPicks assemble cache now symbols).1 := by
  intro symbols
  induction symbols with
  | nil => intro cache h; simp at h
  | cons s rest ih =>
    intro cache hmem hstale herr
    simp only [runPicks, List.mem_cons]
    by_cases hs : s = symbol
    · subst hs
      left
      rw [(handleOne_fail assemble cache s now err hstale herr).1]
    · right
      have hmem2 : symbol ∈ rest := by
        rcases List.mem_cons.mp hmem with h | h
        · exact absurd h.symm hs
        · exact h
      refine ih _ hmem2 ?_ herr
      intro e he
      refine hstale e ?_
      rw [← handleOne_preserves_other assemble cache s now symbol
        (fun h => hs h.symm)]
      exact he

/-! ## Claims -/

/-- C1: For every `IndicatorSignals` record whose present (non-absent)
signals all lie in [-1,1], the composite scorer returns the clamp of the sum
of each present signal times its fixed weight (trend 0.20, oscillator 0.15,
momentum-divergence 0.20, band-position 0.10, volume-anomaly 0.10, sentiment
0.15, volatility-rank 0.10) divided by the sum of the weights of the present
signals; the result is always in [-1,1], and when every signal is absent the
result is exactly 0 (a number, not absence). -/
theorem C1_weightedComposite_correct (s : IndicatorSignals)
    (hbounds : ∀ p ∈ presentPairs s, -1 ≤ p.1 ∧ p.1 ≤ 1) :
    weightedComposite s = compositeSpec s ∧
    -1 ≤ weightedComposite s ∧ weightedComposite s ≤ 1 ∧
    (s = ⟨none, none, none, none, none, none, none⟩ →
      weightedComposite s = 0) := by
  refine ⟨weightedComposite_eq_compositeSpec s, ?_, ?_, ?_⟩
  · rw [weightedComposite_eq_compositeSpec, compositeSpec]
    split
    · norm_num
    · exact neg_one_le_clamp _
  · rw [weightedComposite_eq_compositeSpec, compositeSpec]
    split
    · norm_num
    · exact clamp_le_one _
  · intro h
    subst h
    norm_num [weightedComposite, signalKeys, IndicatorSignals.get]

/-- Witness for C1 at a record with a single present signal of value 3/5. -/
theorem C1_weightedComposite_correct_witness :
    weightedComposite ⟨none, none, none, none, none, some (3/5), none⟩ =
      compositeSpec ⟨none, none, none, none, none, some (3/5), none⟩ ∧
    -1 ≤ weightedComposite ⟨none, none, none, none, none, some (3/5), none⟩ ∧
    weightedComposite ⟨none, none, none, none, none, some (3/5), none⟩ ≤ 1 ∧
    ((⟨none, none, none, none, none, some (3/5), none⟩ : IndicatorSignals) =
        ⟨none, none, none, none, none, none, none⟩ →
      weightedComposite ⟨none, none, none, none, none, some (3/5), none⟩ = 0) :=
  C1_weightedComposite_correct _ (by norm_num [presentPairs])

/-- C5: Every indicator function is total (each embedding is a plain Lean
function, so no input can make it throw), and on an input sequence shorter
than its required window it returns absence: `none` when length < period for
SMA, EMA and the Bollinger statistics, length ≤ period for the oscillator
and the volume-anomaly ratio, and length < 35 for the MACD trend-convergence
indicator. -/
theorem C5_indicators_none_on_short_input :
    (∀ (values : List ℚ) (period : ℕ), values.length < period →
      calculateSMA values period = none) ∧
    (∀ (values : List ℚ) (period : ℕ), values.length < period →
      calculateEMA values period = none) ∧
    (∀ (values : List ℚ) (period : ℕ), values.length ≤ period →
      calculateRSI values period = none) ∧
    (∀ values : List ℚ, values.length < 35 → calculateMACD values = none) ∧
    (∀ (sqrtFn : ℚ → ℚ) (values : List ℚ) (period : ℕ) (multiplier : ℚ),
      values.length < period →
      calculateBollinger sqrtFn values period multiplier = none) ∧
    (∀ (volumes : List ℚ) (period : ℕ), volumes.length ≤ period →
      calculateVolumeSurge volumes period = none) := by
  refine ⟨?_, ?_, ?_, ?_, ?_, ?_⟩ <;> intros <;>
    simp_all [calculateSMA, calculateEMA, calculateRSI, calculateMACD,
      calculateBollinger, calculateVolumeSurge]

/-- Witness for C5 at concrete short inputs. -/
theorem C5_indicators_none_on_short_input_witness :
    calculateSMA [1] 2 = none ∧ calculateEMA [1] 2 = none ∧
    calculateRSI [1] 14 = none ∧ calculateMACD [1] = none ∧
    calculateBollinger id [1] 20 2 = none ∧ calculateVolumeSurge [1] 20 = none :=
  ⟨C5_indicators_none_on_short_input.1 [1] 2 (by norm_num),
   C5_indicators_none_on_short_input.2.1 [1] 2 (by norm_num),
   C5_indicators_none_on_short_input.2.2.1 [1] 14 (by norm_num),
   C5_indicators_none_on_short_input.2.2.2.1 [1] (by norm_num),
   C5_indicators_none_on_short_input.2.2.2.2.1 id [1] 20 2 (by norm_num),
   C5_indicators_none_on_short_input.2.2.2.2.2 [1] 20 (by norm_num)⟩

/-- C6: For every price sequence of length > 14 the relative-strength
oscillator returns a value in [0,100]: exactly 100 when the Wilder running
average loss is exactly 0, and otherwise `100 - 100/(1 + avgGain/avgLoss)`,
which lies in [0,100]. -/
theorem C6_calculateRSI_bounds (values : List ℚ) (h : 14 < values.length) :
    ((wilderAverages values 14).2 = 0 → calculateRSI values = some 100) ∧
    ((wilderAverages values 14).2 ≠ 0 → calculateRSI values =
      some (100 - 100 /
        (1 + (wilderAverages values 14).1 / (wilderAverages values 14).2))) ∧
    ∃ r, calculateRSI values = some r ∧ 0 ≤ r ∧ r ≤ 100 := by
  have hguard : ¬ values.length ≤ 14 := by omega
  obtain ⟨hg, hl⟩ := wilderAverages_nonneg values 14 (by norm_num)
  refine ⟨?_, ?_, ?_⟩
  · intro h0; simp [calculateRSI, hguard, h0]
  · intro h0; simp [calculateRSI, hguard, h0]
  · by_cases h0 : (wilderAverages values 14).2 = 0
    · exact ⟨100, by simp [calculateRSI, hguard, h0], by norm_num, by norm_num⟩
    · have hrs : 0 ≤ (wilderAverages values 14).1 / (wilderAverages values 14).2 :=
        div_nonneg hg hl
      have h1 : (0:ℚ) <
          1 + (wilderAverages values 14).1 / (wilderAverages values 14).2 := by
        linarith
      refine ⟨100 - 100 /
          (1 + (wilderAverages values 14).1 / (wilderAverages values 14).2),
        by simp [calculateRSI, hguard, h0], ?_, ?_⟩
      · have hle : 100 /
            (1 + (wilderAverages values 14).1 / (wilderAverages values 14).2) ≤
            100 := by
          rw [div_le_iff₀ h1]
          nlinarith
        linarith
      · have hposd : 0 < 100 /
            (1 + (wilderAverages values 14).1 / (wilderAverages values 14).2) := by
          positivity
        linarith

/-- Witness for C6 at a constant 15-bar price series. -/
theorem C6_calculateRSI_bounds_witness :
    ∃ r, calculateRSI [1, 1, 1, 1, 1, 1, 1, 1, 1, 1, 1, 1, 1, 1, 1] = some r ∧
      0 ≤ r ∧ r ≤ 100 :=
  (C6_calculateRSI_bounds [1, 1, 1, 1, 1, 1, 1, 1, 1, 1, 1, 1, 1, 1, 1]
    (by norm_num)).2.2

/-- C9: The explanation builder emits, for each present signal whose value
exceeds its threshold in absolute value (0.2 for trend, sentiment and
volatility-rank; 0.3 for oscillator, momentum-divergence and
volume-anomaly), exactly one clause from the fixed library of
bullish/bearish phrasings for that indicator (the rows of
`explanationClauses`), joins the emitted clauses with ". " (plus the final
period the source appends), and returns the fixed neutral sentence when no
signal qualifies. -/
theorem C9_buildExplanation_correct (s : IndicatorSignals) :
    buildHighlights s = explanationClauses s ∧
    buildExplanation s =
      (if explanationClauses s = [] then neutralSentence
       else String.intercalate ". " (explanationClauses s) ++ ".") := by
  refine ⟨buildHighlights_eq_clauses s, ?_⟩
  rw [buildExplanation, buildHighlights_eq_clauses s]
  simp only [List.isEmpty_iff]

/-- C8: For every sentiment snapshot the sentiment signal equals
`clamp((bullishPercent - bearishPercent) / 100)` (the clamp applied at the
source, in `fetchSentiment`); the signal is absent exactly when no snapshot
is available; and the snapshot with bullishPercent 80 and bearishPercent 20
yields sentiment signal 0.6. -/
theorem C8_sentimentSignal_correct :
    (∀ bullishPercent bearishPercent : ℚ,
      sentimentSignal (some (mkSentimentSnapshot bullishPercent bearishPercent)) =
        some (clamp ((bullishPercent - bearishPercent) / 100))) ∧
    sentimentSignal none = none ∧
    (∀ s : SentimentSnapshot, sentimentSignal (some s) = some (clamp s.score)) ∧
    sentimentSignal (some (mkSentimentSnapshot 80 20)) = some (3/5) := by
  refine ⟨?_, rfl, fun s => rfl, ?_⟩
  · intro bull bear
    simp [sentimentSignal, mkSentimentSnapshot, clamp_clamp]
  · simp only [sentimentSignal, mkSentimentSnapshot, clamp_clamp,
      Option.some.injEq]
    rw [show ((80 - 20) / 100 : ℚ) = 3/5 by norm_num]
    exact clamp_eq_self (by norm_num) (by norm_num)

/-- C2: The assembly `getCompositeSignal` fails (rejects) if and only if the
mandatory price history cannot be obtained — the price fetch rejected
(provider failure or missing required API key) or the price series is empty;
a failure or absence of any of the three optional inputs (fundamentals,
sentiment, volatility) only makes the corresponding signals absent and never
aborts the assembly (the success criterion below does not depend on them at
all). -/
theorem C2_assembly_fails_iff_price_missing
    (sqrtFn : ℚ → ℚ) (inputs : AssemblyInputs) (symbol : String) (now : ℤ) :
    ((∃ p, getCompositeSignal sqrtFn inputs symbol now = .ok p) ↔
      ∃ prices, inputs.priceResult = .ok prices ∧ prices ≠ []) ∧
    (∀ p, getCompositeSignal sqrtFn inputs symbol now = .ok p →
      (inputs.sentiment = none → p.signals.sentiment = none) ∧
      (inputs.volatility = none → p.signals.ivRank = none)) := by
  obtain ⟨pr, fr, se, vo⟩ := inputs
  cases pr with
  | error e =>
    constructor
    · simp [getCompositeSignal]
    · intro p hp
      simp [getCompositeSignal] at hp
  | ok prices =>
    by_cases hlen : prices.length = 0
    · obtain rfl := List.length_eq_zero.mp hlen
      constructor
      · simp [getCompositeSignal]
      · intro p hp
        simp [getCompositeSignal] at hp
    · constructor
      · simp only [getCompositeSignal, if_neg hlen]
        constructor
        · intro _
          exact ⟨prices, rfl, fun hnil => hlen (by rw [hnil]; rfl)⟩
        · intro _
          exact ⟨_, rfl⟩
      · intro p hp
        simp only [getCompositeSignal, if_neg hlen, Except.ok.injEq] at hp
        subst hp
        constructor
        · intro hse
          subst hse
          rfl
        · intro hvo
          subst hvo
          rfl

/-- Witness for C2: a one-bar price series assembles successfully even
though the fundamentals fetch rejected and sentiment/volatility are absent. -/
theorem C2_assembly_fails_iff_price_missing_witness :
    ∃ p, getCompositeSignal id
      ⟨.ok [⟨0, 100, 1000⟩], .error "fundamentals down", none, none⟩
      "AAPL" 7 = .ok p :=
  (C2_assembly_fails_iff_price_missing id
      ⟨.ok [⟨0, 100, 1000⟩], .error "fundamentals down", none, none⟩
      "AAPL" 7).1.mpr ⟨[⟨0, 100, 1000⟩], rfl, by simp⟩

/-- C3: For every requested symbol whose assembly fails entirely (no fresh
cache entry and the assembly rejects), the batch operation substitutes the
degraded placeholder — score 0, all seven signals absent, empty details,
latestPrice absent, the fixed unavailable-explanation, updatedAt the current
time — and the batch operation itself still returns one pick per requested
symbol. -/
theorem C3_getPicks_degraded_placeholder
    (assemble : String → ℤ → Except String CompositePick)
    (cache : Cache) (now : ℤ) (symbols : List String)
    (symbol : String) (err : String)
    (hmem : symbol ∈ symbols)
    (hstale : ∀ e, cacheGet cache symbol = some e →
      CACHE_TTL_MS ≤ now - e.updatedAt)
    (herr : assemble symbol now = .error err) :
    placeholderPick symbol now ∈ (getPicks assemble cache now symbols).1.picks ∧
    (placeholderPick symbol now).score = 0 ∧
    (placeholderPick symbol now).signals =
      ⟨none, none, none, none, none, none, none⟩ ∧
    (placeholderPick symbol now).details = [] ∧
    (placeholderPick symbol now).latestPrice = none ∧
    (placeholderPick symbol now).explanation =
      "Signal unavailable due to upstream data error." ∧
    (placeholderPick symbol now).updatedAt = now ∧
    (getPicks assemble cache now symbols).1.picks.length = symbols.length := by
  have hperm := List.mergeSort_perm ((runPicks assemble cache now symbols).1)
    (fun a b => decide (b.score ≤ a.score))
  refine ⟨?_, rfl, rfl, rfl, rfl, rfl, rfl, ?_⟩
  · have hmem2 := runPicks_placeholder_mem assemble now symbol err symbols
      cache hmem hstale herr
    simp only [getPicks, sortPicks]
    exact hperm.mem_iff.mpr hmem2
  · simp only [getPicks, sortPicks]
    rw [hperm.length_eq, runPicks_length]

/-- Witness for C3: symbol "ZZZ" with an empty cache and an assembly that
always rejects yields the placeholder in the batch output. -/
theorem C3_getPicks_degraded_placeholder_witness :
    placeholderPick "ZZZ" 5 ∈
      (getPicks (fun _ _ => .error "no data") [] 5 ["ZZZ"]).1.picks :=
  (C3_getPicks_degraded_placeholder (fun _ _ => .error "no data") [] 5
    ["ZZZ"] "ZZZ" "no data" (by simp)
    (fun e he => by simp [cacheGet] at he) rfl).1

/-- C4: While a cache entry is fresh (`now - updatedAt < TTL`, TTL =
120000 ms), `loadSignal` returns the stored payload unchanged without
assembling — so two reads within the TTL return the identical payload and
trigger no fetch; once the TTL has elapsed it performs exactly one
reassembly, overwrites the entry, and returns the new payload, whose
`updatedAt` is newer than the previous payload's. -/
theorem C4_loadSignal_ttl_contract
    (assemble : String → ℤ → Except String CompositePick)
    (cache : Cache) (symbol : String) (e : CachedSignal)
    (t1 t2 t3 : ℤ) (p : CompositePick)
    (hget : cacheGet cache symbol = some e)
    (h1 : t1 - e.updatedAt < CACHE_TTL_MS)
    (h2 : t2 - e.updatedAt < CACHE_TTL_MS)
    (h3 : CACHE_TTL_MS ≤ t3 - e.updatedAt)
    (hok : assemble symbol t3 = .ok p)
    (hstamp : p.updatedAt = t3)
    (hmono : e.payload.updatedAt ≤ e.updatedAt) :
    loadSignal assemble cache symbol t1 = .ok (e.payload, cache, false) ∧
    loadSignal assemble cache symbol t2 = .ok (e.payload, cache, false) ∧
    loadSignal assemble cache symbol t3 =
      .ok (p, cacheSet cache symbol ⟨t3, p⟩, true) ∧
    cacheGet (cacheSet cache symbol ⟨t3, p⟩) symbol = some ⟨t3, p⟩ ∧
    e.payload.updatedAt < p.updatedAt := by
  have httl : (0 : ℤ) < CACHE_TTL_MS := by norm_num [CACHE_TTL_MS]
  refine ⟨?_, ?_, ?_, cacheGet_cacheSet_self cache symbol _, ?_⟩
  · simp [loadSignal, hget, if_pos h1]
  · simp [loadSignal, hget, if_pos h2]
  · simp only [loadSignal, hget, if_neg (not_lt.mpr h3)]
    exact (refreshSignal_cases assemble cache symbol t3).2 p hok
  · linarith

/-- Witness for C4 on a concrete cache entry, with fresh reads at times 1
and 2 and a stale read at time 200000. -/
theorem C4_loadSignal_ttl_contract_witness :
    loadSignal (fun s t => .ok (placeholderPick s t))
      [("A", ⟨0, placeholderPick "A" 0⟩)] "A" 1 =
      .ok (placeholderPick "A" 0, [("A", ⟨0, placeholderPick "A" 0⟩)], false) ∧
    loadSignal (fun s t => .ok (placeholderPick s t))
      [("A", ⟨0, placeholderPick "A" 0⟩)] "A" 2 =
      .ok (placeholderPick "A" 0, [("A", ⟨0, placeholderPick "A" 0⟩)], false) ∧
    loadSignal (fun s t => .ok (placeholderPick s t))
      [("A", ⟨0, placeholderPick "A" 0⟩)] "A" 200000 =
      .ok (placeholderPick "A" 200000,
        cacheSet [("A", ⟨0, placeholderPick "A" 0⟩)] "A"
          ⟨200000, placeholderPick "A" 200000⟩, true) ∧
    cacheGet (cacheSet [("A", ⟨0, placeholderPick "A" 0⟩)] "A"
        ⟨200000, placeholderPick "A" 200000⟩) "A" =
      some ⟨200000, placeholderPick "A" 200000⟩ ∧
    (placeholderPick "A" 0).updatedAt < (placeholderPick "A" 200000).updatedAt :=
  C4_loadSignal_ttl_contract (fun s t => .ok (placeholderPick s t))
    [("A", ⟨0, placeholderPick "A" 0⟩)] "A" ⟨0, placeholderPick "A" 0⟩
    1 2 200000 (placeholderPick "A" 200000)
    (by simp [cacheGet]) (by norm_num [CACHE_TTL_MS, placeholderPick])
    (by norm_num [CACHE_TTL_MS, placeholderPick])
    (by norm_num [CACHE_TTL_MS, placeholderPick]) rfl rfl (le_refl _)

/-- C7: In the batch response, the picks are sorted in descending order of
score — every adjacent pair satisfies `later.score ≤ earlier.score` — and
they are a permutation of the per-symbol results, one per requested symbol,
regardless of the input order. -/
theorem C7_getPicks_sorted_desc
    (assemble : String → ℤ → Except String CompositePick)
    (cache : Cache) (now : ℤ) (symbols : List String) :
    ((getPicks assemble cache now symbols).1.picks).Pairwise
      (fun a b => b.score ≤ a.score) ∧
    ((getPicks assemble cache now symbols).1.picks).Perm
      ((runPicks assemble cache now symbols).1) ∧
    ((getPicks assemble cache now symbols).1.picks).length = symbols.length := by
  have hperm := List.mergeSort_perm ((runPicks assemble cache now symbols).1)
    (fun a b => decide (b.score ≤ a.score))
  have hsorted := @List.sorted_mergeSort CompositePick
    (fun a b => decide (b.score ≤ a.score))
    (fun a b c hab hbc => by
      simp only [decide_eq_true_eq] at *
      linarith)
    (fun a b => by
      simp only [Bool.or_eq_true, decide_eq_true_eq]
      exact le_total _ _)
    ((runPicks assemble cache now symbols).1)
  refine ⟨?_, ?_, ?_⟩
  · simp only [getPicks, sortPicks]
    simpa using hsorted
  · simp only [getPicks, sortPicks]
    exact hperm
  · simp only [getPicks, sortPicks]
    rw [hperm.length_eq, runPicks_length]

/-- C10: A failed assembly leaves the cache unchanged — the handler returns
the placeholder with the original cache, `loadSignal` itself rejects and
writes nothing; any `loadSignal` that did write (fetched = true) stored
exactly a successfully assembled payload, so the placeholder is never
cached; and a later request for the symbol re-attempts assembly (and, when
the upstream has recovered, fetches and stores the new payload). -/
theorem C10_failed_assembly_leaves_cache_unchanged
    (assemble : String → ℤ → Except String CompositePick)
    (cache : Cache) (symbol : String) (t1 t2 : ℤ) (err : String)
    (p : CompositePick)
    (hstale1 : ∀ e, cacheGet cache symbol = some e →
      CACHE_TTL_MS ≤ t1 - e.updatedAt)
    (herr : assemble symbol t1 = .error err)
    (hstale2 : ∀ e, cacheGet cache symbol = some e →
      CACHE_TTL_MS ≤ t2 - e.updatedAt)
    (hok : assemble symbol t2 = .ok p) :
    handleOne assemble cache symbol t1 = (placeholderPick symbol t1, cache) ∧
    loadSignal assemble cache symbol t1 = .error err ∧
    (∀ (c0 : Cache) (s : String) (t : ℤ) (q : CompositePick) (c' : Cache),
      loadSignal assemble c0 s t = .ok (q, c', true) → assemble s t = .ok q) ∧
    loadSignal assemble cache symbol t2 =
      .ok (p, cacheSet cache symbol ⟨t2, p⟩, true) := by
  obtain ⟨ha, hb⟩ := handleOne_fail assemble cache symbol t1 err hstale1 herr
  refine ⟨ha, hb, ?_, ?_⟩
  · intro c0 s t q c' h
    exact (loadSignal_fetch_ok assemble c0 s t q c' h).1
  · unfold loadSignal
    split
    · next e heq =>
      rw [if_neg (not_lt.mpr (hstale2 e heq))]
      exact (refreshSignal_cases assemble cache symbol t2).2 p hok
    · exact (refreshSignal_cases assemble cache symbol t2).2 p hok

/-- Witness for C10 with an empty cache and an upstream that fails at time 0
and recovers at time 1. -/
theorem C10_failed_assembly_leaves_cache_unchanged_witness :
    handleOne (fun s t => if t ≤ 0 then .error "upstream" else
      .ok (placeholderPick s t)) [] "Z" 0 = (placeholderPick "Z" 0, []) ∧
    loadSignal (fun s t => if t ≤ 0 then .error "upstream" else
      .ok (placeholderPick s t)) [] "Z" 0 = .error "upstream" ∧
    (∀ (c0 : Cache) (s : String) (t : ℤ) (q : CompositePick) (c' : Cache),
      loadSignal (fun s t => if t ≤ 0 then .error "upstream" else
        .ok (placeholderPick s t)) c0 s t = .ok (q, c', true) →
      (if t ≤ 0 then (Except.error "upstream" : Except String CompositePick)
        else Except.ok (placeholderPick s t)) = Except.ok q) ∧
    loadSignal (fun s t => if t ≤ 0 then .error "upstream" else
      .ok (placeholderPick s t)) [] "Z" 1 =
      .ok (placeholderPick "Z" 1, cacheSet [] "Z" ⟨1, placeholderPick "Z" 1⟩,
        true) :=
  C10_failed_assembly_leaves_cache_unchanged
    (fun s t => if t ≤ 0 then .error "upstream" else .ok (placeholderPick s t))
    [] "Z" 0 1 "upstream" (placeholderPick "Z" 1)
    (fun e he => by simp [cacheGet] at he) (by norm_num)
    (fun e he => by simp [cacheGet] at he) (by norm_num)

end AITradingSite
